import Mathlib

/-!
# The libogc video driver of SDL 1.2 (`src/video/libogc/SDL_libogcvideo.c`)

A shallow embedding of the driver's mode table, its mode-set operation, its
initialisation and its shutdown, followed by the properties of the driver's
specification that can be stated over it.

Modelling conventions

* C `int` values are `Int`; unsigned values are `Nat`, reduced modulo the width
  of their C type where the code stores them (`Uint16`, `Uint32`, `size_t`).
  `size_t` is 32 bits wide, as on the PowerPC consoles libogc targets.
* A data pointer is an address, `0` being `NULL`.  The heap records which
  blocks are allocated, their size and bytes, and the order of the allocation
  and release events.
* The pointer `mode` of the mode search points into the static mode
  descriptors.  It is an object together with an element index: the C object
  model.  Reading through it is defined only at index `0` of `mode_640` or
  `mode_320`; any other read is undefined behaviour and is an explicit outcome.
* The results of the two allocations a mode-set performs (`memalign`,
  `SDL_ReallocFormat`) are inputs of the model (`Env`).
* The host library passes the device's video surface (`this->screen`) as the
  `current` argument of the mode-set, so the state holds one surface.
* The search loop of the mode-set runs on a budget of iterations (`fuel`);
  results are stated for every budget that is large enough.
-/

namespace Libogc

/-! ## Outcomes -/

/-- Kinds of undefined behaviour the driver code can run into. -/
inductive Fault where
  | outOfBoundsRead
  | invalidFree
  | signedOverflow
deriving DecidableEq, Repr

/-- Result of running a piece of the driver: a value, undefined behaviour, or
the loop budget of the model ran out. -/
inductive Outcome (α : Type) where
  | ok (a : α)
  | undefined (f : Fault)
  | outOfFuel
deriving Repr

/-- Sequencing of outcomes: the second step runs only after a value. -/
def Outcome.bind {α β : Type} (o : Outcome α) (f : α → Outcome β) : Outcome β :=
  match o with
  | .ok a => f a
  | .undefined u => .undefined u
  | .outOfFuel => .outOfFuel

/-! ## Data model -/

/-- Data pointers are addresses; `0` is `NULL`. -/
abbrev Ptr := Nat

/-- Modelled from the spec: the mode descriptor, a rectangle of the host library
whose declaration is not part of the sources; the field types are those of
the host header, `Sint16 x, y; Uint16 w, h;`. -/
structure SDL_Rect where
  x : Int
  y : Int
  w : Nat
  h : Nat
deriving DecidableEq, Repr

/-- The two file-scope statics `mode_320` and `mode_640`. -/
structure Statics where
  mode_320 : SDL_Rect
  mode_640 : SDL_Rect
deriving DecidableEq, Repr

/-- Names of the static mode descriptors a `SDL_Rect*` can point into. -/
inductive ModeObj where
  | mode_320
  | mode_640
deriving DecidableEq, Repr

/-- A value of type `SDL_Rect*`: `NULL`, or the address of a static descriptor
advanced by `idx` elements (`&obj + idx`). -/
inductive RectPtr where
  | null
  | elem (obj : ModeObj) (idx : Nat)
deriving DecidableEq, Repr

/-- The array `modes_descending`: `&mode_640`, `&mode_320`, `NULL`. -/
def modes_descending : List RectPtr :=
  [RectPtr.elem ModeObj.mode_640 0, RectPtr.elem ModeObj.mode_320 0, RectPtr.null]

/-- Reading `*p` for a `SDL_Rect*`: defined only for the first element of one of
the two descriptors; `none` is a read outside every object. -/
def load (st : Statics) : RectPtr → Option SDL_Rect
  | RectPtr.elem ModeObj.mode_640 0 => some st.mode_640
  | RectPtr.elem ModeObj.mode_320 0 => some st.mode_320
  | _ => none

/-- Modelled from the spec: the pixel format record of the host library (bit
depth, byte depth, channel masks); its declaration is not part of the sources. -/
structure SDL_PixelFormat where
  BitsPerPixel : Nat
  BytesPerPixel : Nat
  Rmask : Nat
  Gmask : Nat
  Bmask : Nat
  Amask : Nat
deriving DecidableEq, Repr

/-- Modelled from the spec: the generic surface record of the host library, whose
declaration is not part of the sources; the fields the driver reads or writes,
with the types of the host header,
`Uint32 flags; SDL_PixelFormat *format; int w, h; Uint16 pitch; void *pixels;`. -/
structure SDL_Surface where
  flags : Nat
  format : Option SDL_PixelFormat
  w : Int
  h : Int
  pitch : Nat
  pixels : Ptr
deriving DecidableEq, Repr

/-- Modelled from the spec: the device private state (`this->hidden`), declared in
the driver header that is not part of the sources: the current buffer and its
width and height, `int w, h; void *buffer;`. -/
structure SDL_PrivateVideoData where
  w : Int
  h : Int
  buffer : Ptr
deriving DecidableEq, Repr

/-- Allocation and release events, in program order. -/
inductive HeapEvent where
  | alloc (p : Ptr) (size : Nat)
  | free (p : Ptr)
deriving DecidableEq, Repr

/-- The C heap as far as the driver uses it: the blocks allocated and not yet
freed, the size and bytes of the block at each address, and the event log. -/
structure Heap where
  live : List Ptr
  size : Ptr → Nat
  bytes : Ptr → Nat → Nat
  log : List HeapEvent

/-- Errors the driver reports through `SDL_SetError`. -/
inductive SDLError where
  | unsupportedMode (width height : Int)
  | unsupportedBpp (bpp : Int)
  | bufferAlloc
  | formatAlloc
deriving DecidableEq, Repr

/-- Everything the driver functions read or write. -/
structure State where
  statics : Statics
  hidden : SDL_PrivateVideoData
  screen : SDL_Surface
  heap : Heap
  error : Option SDLError

/-- What the environment answers during one mode-set: the pointer `memalign`
returns (`0` when it fails), the bytes found in the fresh block, and whether
`SDL_ReallocFormat` succeeds. -/
structure Env where
  memalign : Ptr
  garbage : Nat → Nat
  realloc_ok : Bool

/-- Value returned by the mode-set: `NULL` or the pointer `current` it was given. -/
inductive SurfaceRef where
  | null
  | current
deriving DecidableEq, Repr

/-! ## Heap operations -/

/-- The call `free(p)` for `p != NULL`: releases a live block; `none` when the
block is not allocated (double or invalid free). -/
def Heap.free (hp : Heap) (p : Ptr) : Option Heap :=
  if p ∈ hp.live then
    some { hp with live := hp.live.erase p, log := hp.log ++ [HeapEvent.free p] }
  else none

/-- The call `memalign(32, n)` answering `p`: nothing happens when `p` is
`NULL`; otherwise a block of `n` bytes with arbitrary contents is live at `p`. -/
def Heap.memalign (hp : Heap) (p : Ptr) (n : Nat) (garbage : Nat → Nat) : Heap :=
  if p = 0 then hp
  else
    { live := p :: hp.live
      size := fun q => if q = p then n else hp.size q
      bytes := fun q => if q = p then garbage else hp.bytes q
      log := hp.log ++ [HeapEvent.alloc p n] }

/-- The call `SDL_memset(p, 0, n)`: the first `n` bytes of the block become 0. -/
def Heap.memset0 (hp : Heap) (p : Ptr) (n : Nat) : Heap :=
  { hp with bytes := fun q => if q = p then (fun i => if i < n then 0 else hp.bytes q i) else hp.bytes q }

/-! ## Machine arithmetic -/

/-- Number of values of `size_t` (32 bits). -/
def SIZE_MOD : Nat := 2 ^ 32

/-- Largest `int`. -/
def INT_MAX : Int := 2 ^ 31 - 1

/-- Smallest `int`. -/
def INT_MIN : Int := -(2 ^ 31)

/-- Conversion of an `int` to `size_t`. -/
def toSizeT (i : Int) : Nat := (i % (SIZE_MOD : Int)).toNat

/-- The expression `width * height * bytes_per_pixel`: an `int` product
(overflow is undefined), converted to `size_t` and multiplied there. -/
def bufferBytes (width height : Int) (bytes_per_pixel : Nat) : Outcome Nat :=
  if width * height < INT_MIN ∨ INT_MAX < width * height then
    Outcome.undefined Fault.signedOverflow
  else Outcome.ok ((toSizeT (width * height) * bytes_per_pixel) % SIZE_MOD)

/-! ## Surface flags -/

/-- Modelled from the spec: the hardware-palette bit of the surface flags; the
value is the one of the host header, which is not part of the sources. -/
def SDL_HWPALETTE : Nat := 0x20000000

/-- Modelled from the spec: the double-buffer bit of the surface flags; the value
is the one of the host header, which is not part of the sources. -/
def SDL_DOUBLEBUF : Nat := 0x40000000

/-- Modelled from the spec: the fullscreen bit of the surface flags; the value is
the one of the host header, which is not part of the sources. -/
def SDL_FULLSCREEN : Nat := 0x80000000

/-! ## The driver functions -/

/-- Modelled from the spec: `SDL_ReallocFormat` of the host library, which is
not part of the sources.  On success the surface's pixel format is rewritten
to the new bit depth with the given masks; the spec describes no effect of a
failed call, so the surface is then left as it is.  The flag is the result. -/
def SDL_ReallocFormat (surface : SDL_Surface) (bpp : Int) (Rmask Gmask Bmask Amask : Nat)
    (ok : Bool) : SDL_Surface × Bool :=
  if ok then
    ({ surface with
        format := some
          { BitsPerPixel := bpp.toNat, BytesPerPixel := (bpp.toNat + 7) / 8,
            Rmask := Rmask, Gmask := Gmask, Bmask := Bmask, Amask := Amask } }, true)
  else (surface, false)

/-- The function `libogc_VideoInit`: derives `mode_320` from `mode_640`, reports the
16-bit format, clears the private data (without freeing), returns 0. -/
def libogc_VideoInit (s : State) (vformat : SDL_PixelFormat) : State × SDL_PixelFormat × Int :=
  let mode_320 : SDL_Rect :=
    { s.statics.mode_320 with
        w := (s.statics.mode_640.w / 2) % 2 ^ 16
        h := (s.statics.mode_640.h / 2) % 2 ^ 16 }
  ({ s with
      statics := { s.statics with mode_320 := mode_320 }
      hidden := { buffer := 0, w := 0, h := 0 } },
   { vformat with BitsPerPixel := 16, BytesPerPixel := 2 },
   0)

/-- The function `libogc_ListModes`: `&modes_descending[0]`, whatever the format and flags. -/
def libogc_ListModes (_s : State) (_format : SDL_PixelFormat) (_flags : Nat) : List RectPtr :=
  modes_descending

/-- The mode descriptors a consumer of `libogc_ListModes` sees: the entries
before the `NULL` sentinel, dereferenced. -/
def listedModes (s : State) (format : SDL_PixelFormat) (flags : Nat) : List SDL_Rect :=
  ((libogc_ListModes s format flags).takeWhile (fun p => p != RectPtr.null)).filterMap (load s.statics)

/-- The search loop of `libogc_SetVideoMode`:
`while (mode) { if (mode->w == width && mode->h == height) break; else ++mode; }`.
It returns the value of `mode` after the loop. -/
def findMode (st : Statics) (width height : Int) : Nat → RectPtr → Outcome RectPtr
  | 0, _ => Outcome.outOfFuel
  | _ + 1, RectPtr.null => Outcome.ok RectPtr.null
  | fuel + 1, RectPtr.elem obj idx =>
    match load st (RectPtr.elem obj idx) with
    | none => Outcome.undefined Fault.outOfBoundsRead
    | some r =>
      if (r.w : Int) = width ∧ (r.h : Int) = height then Outcome.ok (RectPtr.elem obj idx)
      else findMode st width height fuel (RectPtr.elem obj (idx + 1))

/-- The function `libogc_SetVideoMode`, with `current` the device's surface.
`fuel` bounds the iterations of the search loop. -/
def libogc_SetVideoMode (fuel : Nat) (s : State) (width height bpp : Int) (flags : Nat)
    (env : Env) : Outcome (State × SurfaceRef) :=
  match findMode s.statics width height fuel (modes_descending.headD RectPtr.null) with
  | Outcome.outOfFuel => Outcome.outOfFuel
  | Outcome.undefined f => Outcome.undefined f
  | Outcome.ok mode =>
    if mode = RectPtr.null then
      Outcome.ok ({ s with error := some (SDLError.unsupportedMode width height) }, SurfaceRef.null)
    else if bpp ≠ 8 ∧ bpp ≠ 16 ∧ bpp ≠ 24 then
      Outcome.ok ({ s with error := some (SDLError.unsupportedBpp bpp) }, SurfaceRef.null)
    else
      let bytes_per_pixel : Nat := toSizeT (Int.tdiv bpp 8)
      -- Free any existing buffer.
      match (if s.hidden.buffer ≠ 0 then s.heap.free s.hidden.buffer else some s.heap) with
      | none => Outcome.undefined Fault.invalidFree
      | some heap1 =>
        -- Allocate the new buffer.
        match bufferBytes width height bytes_per_pixel with
        | Outcome.outOfFuel => Outcome.outOfFuel
        | Outcome.undefined f => Outcome.undefined f
        | Outcome.ok n =>
          let heap2 := heap1.memalign env.memalign n env.garbage
          if env.memalign = 0 then
            Outcome.ok ({ s with
                            hidden := { s.hidden with buffer := 0 }
                            heap := heap2
                            error := some SDLError.bufferAlloc }, SurfaceRef.null)
          else
            -- Allocate the new pixel format for the screen.
            match SDL_ReallocFormat s.screen bpp 0 0 0 0 env.realloc_ok with
            | (screen1, false) =>
              match heap2.free env.memalign with
              | none => Outcome.undefined Fault.invalidFree
              | some heap3 =>
                Outcome.ok ({ s with
                                hidden := { s.hidden with buffer := 0 }
                                screen := screen1
                                heap := heap3
                                error := some SDLError.formatAlloc }, SurfaceRef.null)
            | (screen1, true) =>
              -- Clear the buffer, set up the new mode framebuffer and the hidden data.
              let heap3 := heap2.memset0 env.memalign n
              let screen2 : SDL_Surface :=
                { screen1 with
                    flags := SDL_DOUBLEBUF ||| (flags &&& SDL_FULLSCREEN) ||| (flags &&& SDL_HWPALETTE)
                    w := width
                    h := height
                    pitch := ((toSizeT width * bytes_per_pixel) % SIZE_MOD) % 2 ^ 16
                    pixels := env.memalign }
              Outcome.ok ({ s with
                              hidden := { buffer := env.memalign, w := screen2.w, h := screen2.h }
                              screen := screen2
                              heap := heap3 }, SurfaceRef.current)

/-- The function `libogc_VideoQuit`: frees the screen's pixel block when there is one
and clears that pointer. -/
def libogc_VideoQuit (s : State) : Outcome State :=
  if s.screen.pixels ≠ 0 then
    match s.heap.free s.screen.pixels with
    | none => Outcome.undefined Fault.invalidFree
    | some heap1 => Outcome.ok { s with heap := heap1, screen := { s.screen with pixels := 0 } }
  else Outcome.ok s

/-! ## Program states -/

/-- Zero-initialised rectangle. -/
def zeroRect : SDL_Rect := { x := 0, y := 0, w := 0, h := 0 }

/-- The statics at program start: static storage is zero-initialised. -/
def initStatics : Statics := { mode_320 := zeroRect, mode_640 := zeroRect }

/-- Heap with no block allocated. -/
def emptyHeap : Heap :=
  { live := [], size := fun _ => 0, bytes := fun _ _ => 0, log := [] }

/-- Zeroed pixel format, the record the host passes to `libogc_VideoInit`. -/
def zeroFormat : SDL_PixelFormat :=
  { BitsPerPixel := 0, BytesPerPixel := 0, Rmask := 0, Gmask := 0, Bmask := 0, Amask := 0 }

/-- The state right after `libogc_CreateDevice`: zeroed private data, statics
untouched, an empty surface without pixels, nothing allocated, no error. -/
def initState : State :=
  { statics := initStatics
    hidden := { w := 0, h := 0, buffer := 0 }
    screen := { flags := 0, format := none, w := 0, h := 0, pitch := 0, pixels := 0 }
    heap := emptyHeap
    error := none }

/-- States the driver can be in: `libogc_VideoInit` on a device whose statics
are still zero-initialised, followed by any sequence of initialisation,
mode-set and shutdown calls that return. -/
inductive Reachable : State → Prop where
  | init (s0 : State) (vformat : SDL_PixelFormat) :
      s0.statics = initStatics → Reachable (libogc_VideoInit s0 vformat).1
  | reinit (s : State) (vformat : SDL_PixelFormat) :
      Reachable s → Reachable (libogc_VideoInit s vformat).1
  | setVideoMode (s s1 : State) (r : SurfaceRef) (fuel : Nat) (width height bpp : Int)
      (flags : Nat) (env : Env) :
      Reachable s →
      libogc_SetVideoMode fuel s width height bpp flags env = Outcome.ok (s1, r) →
      Reachable s1
  | videoQuit (s s1 : State) :
      Reachable s → libogc_VideoQuit s = Outcome.ok s1 → Reachable s1

/-- The device after its first initialisation. -/
def readyState : State := (libogc_VideoInit initState zeroFormat).1

/-- An environment in which both allocations succeed, the buffer at `p`. -/
def envOk (p : Ptr) : Env := { memalign := p, garbage := fun _ => 255, realloc_ok := true }

/-- An environment in which `memalign` fails. -/
def envNoMem : Env := { memalign := 0, garbage := fun _ => 255, realloc_ok := true }

/-- An environment in which `memalign` gives `p` and `SDL_ReallocFormat` fails. -/
def envNoFormat (p : Ptr) : Env := { memalign := p, garbage := fun _ => 255, realloc_ok := false }

/-- The state after a mode-set that returns (with the surface or with `NULL`),
or the starting state when the call does not return; used to name the states
of concrete runs. -/
def afterSetVideoMode (fuel : Nat) (s : State) (width height bpp : Int) (flags : Nat)
    (env : Env) : State :=
  match libogc_SetVideoMode fuel s width height bpp flags env with
  | Outcome.ok (s1, _) => s1
  | _ => s

/-- The state after a shutdown that returns, or the starting state otherwise;
used to name the states of concrete runs. -/
def afterVideoQuit (s : State) : State :=
  match libogc_VideoQuit s with
  | Outcome.ok s1 => s1
  | _ => s

/-- The initialised device for a given content of the full-size descriptor: the
statics hold `mode_640 = w x h` when `libogc_VideoInit` runs, everything else
is as on the fresh device. -/
def tableState (w h : Nat) : State :=
  (libogc_VideoInit
    { initState with
        statics := { mode_320 := zeroRect, mode_640 := { x := 0, y := 0, w := w, h := h } } }
    zeroFormat).1

/-! ## The mode search -/

/-- One iteration of the search at the first list entry. -/
theorem findMode_first (st : Statics) (width height : Int) (fuel : Nat) :
    findMode st width height (fuel + 1) (RectPtr.elem ModeObj.mode_640 0) =
      if (st.mode_640.w : Int) = width ∧ (st.mode_640.h : Int) = height then
        Outcome.ok (RectPtr.elem ModeObj.mode_640 0)
      else findMode st width height fuel (RectPtr.elem ModeObj.mode_640 1) := by
  rfl

/-- After `++mode` the pointer is past `mode_640`: the next read is out of bounds. -/
theorem findMode_past (st : Statics) (width height : Int) (fuel : Nat) :
    findMode st width height (fuel + 1) (RectPtr.elem ModeObj.mode_640 1) =
      Outcome.undefined Fault.outOfBoundsRead := by
  rfl

/-- The search started at `modes_descending[0]` with a request equal to `mode_640`. -/
theorem findMode_match (st : Statics) (width height : Int) (fuel : Nat)
    (hw : (st.mode_640.w : Int) = width) (hh : (st.mode_640.h : Int) = height) :
    findMode st width height (fuel + 1) (modes_descending.headD RectPtr.null) =
      Outcome.ok (RectPtr.elem ModeObj.mode_640 0) := by
  show findMode st width height (fuel + 1) (RectPtr.elem ModeObj.mode_640 0) = _
  rw [findMode_first, if_pos ⟨hw, hh⟩]

/-- The search started at `modes_descending[0]` with any other request reads
past `mode_640`. -/
theorem findMode_mismatch (st : Statics) (width height : Int) (fuel : Nat)
    (hne : ¬ ((st.mode_640.w : Int) = width ∧ (st.mode_640.h : Int) = height)) :
    findMode st width height (fuel + 2) (modes_descending.headD RectPtr.null) =
      Outcome.undefined Fault.outOfBoundsRead := by
  show findMode st width height (fuel + 1 + 1) (RectPtr.elem ModeObj.mode_640 0) = _
  rw [findMode_first, if_neg hne, findMode_past]

/-- The search never leaves the loop with `mode == NULL`. -/
theorem findMode_ne_null (st : Statics) (width height : Int) (fuel : Nat) :
    findMode st width height fuel (modes_descending.headD RectPtr.null) ≠
      Outcome.ok RectPtr.null := by
  show findMode st width height fuel (RectPtr.elem ModeObj.mode_640 0) ≠ _
  cases fuel with
  | zero => intro h; cases h
  | succ n =>
    rw [findMode_first]
    split
    · intro h; cases h
    · cases n with
      | zero => intro h; cases h
      | succ m => rw [findMode_past]; intro h; cases h

/-- When the search returns a pointer, the request equals `mode_640`. -/
theorem findMode_ok (st : Statics) (width height : Int) (fuel : Nat) (p : RectPtr)
    (h : findMode st width height fuel (modes_descending.headD RectPtr.null) = Outcome.ok p) :
    p = RectPtr.elem ModeObj.mode_640 0 ∧
      (st.mode_640.w : Int) = width ∧ (st.mode_640.h : Int) = height := by
  change findMode st width height fuel (RectPtr.elem ModeObj.mode_640 0) = _ at h
  cases fuel with
  | zero => cases h
  | succ n =>
    rw [findMode_first] at h
    split at h
    · next hm => cases h; exact ⟨rfl, hm⟩
    · cases n with
      | zero => cases h
      | succ m => rw [findMode_past] at h; cases h

/-! ## The mode-set, case by case -/

/-- A request that differs from `mode_640` makes the mode-set read out of bounds. -/
theorem setVideoMode_mismatch (fuel : Nat) (s : State) (width height bpp : Int) (flags : Nat)
    (env : Env)
    (hne : ¬ ((s.statics.mode_640.w : Int) = width ∧ (s.statics.mode_640.h : Int) = height)) :
    libogc_SetVideoMode (fuel + 2) s width height bpp flags env =
      Outcome.undefined Fault.outOfBoundsRead := by
  unfold libogc_SetVideoMode
  rw [findMode_mismatch s.statics width height fuel hne]

/-- A failed `SDL_ReallocFormat` leaves the surface as it is. -/
theorem SDL_ReallocFormat_false (surface : SDL_Surface) (bpp : Int) (r g b a : Nat) :
    SDL_ReallocFormat surface bpp r g b a false = (surface, false) := rfl

/-- A successful `SDL_ReallocFormat` rewrites the format only. -/
theorem SDL_ReallocFormat_true (surface : SDL_Surface) (bpp : Int) (r g b a : Nat) :
    SDL_ReallocFormat surface bpp r g b a true =
      ({ surface with
          format := some
            { BitsPerPixel := bpp.toNat, BytesPerPixel := (bpp.toNat + 7) / 8,
              Rmask := r, Gmask := g, Bmask := b, Amask := a } }, true) := rfl

/-- What a mode-set that returns `current` has done. -/
theorem setVideoMode_current (fuel : Nat) (s s1 : State) (width height bpp : Int) (flags : Nat)
    (env : Env)
    (h : libogc_SetVideoMode fuel s width height bpp flags env =
      Outcome.ok (s1, SurfaceRef.current)) :
    ((s.statics.mode_640.w : Int) = width ∧ (s.statics.mode_640.h : Int) = height) ∧
    (bpp = 8 ∨ bpp = 16 ∨ bpp = 24) ∧ env.memalign ≠ 0 ∧ env.realloc_ok = true ∧
    ∃ heap1 n,
      (if s.hidden.buffer ≠ 0 then s.heap.free s.hidden.buffer else some s.heap) = some heap1 ∧
      bufferBytes width height (toSizeT (Int.tdiv bpp 8)) = Outcome.ok n ∧
      s1.heap = (heap1.memalign env.memalign n env.garbage).memset0 env.memalign n ∧
      s1.screen.flags = SDL_DOUBLEBUF ||| (flags &&& SDL_FULLSCREEN) ||| (flags &&& SDL_HWPALETTE) ∧
      s1.screen.w = width ∧ s1.screen.h = height ∧
      s1.screen.pitch = ((toSizeT width * toSizeT (Int.tdiv bpp 8)) % SIZE_MOD) % 2 ^ 16 ∧
      s1.screen.pixels = env.memalign ∧
      s1.hidden = { buffer := env.memalign, w := width, h := height } ∧
      s1.statics = s.statics := by
  unfold libogc_SetVideoMode at h
  split at h
  · cases h
  · cases h
  · next mode hfind =>
    obtain ⟨hmode, hdims⟩ := findMode_ok _ _ _ _ _ hfind
    subst hmode
    rw [if_neg (by decide)] at h
    split at h
    · cases h
    · next hbpp =>
      have hb : bpp = 8 ∨ bpp = 16 ∨ bpp = 24 := by
        by_contra hc
        push_neg at hc
        exact hbpp ⟨hc.1, hc.2.1, hc.2.2⟩
      split at h
      · cases h
      · next heap1 hfree =>
        dsimp only at h
        cases hn : bufferBytes width height (toSizeT (Int.tdiv bpp 8)) with
        | outOfFuel => rw [hn] at h; cases h
        | undefined f => rw [hn] at h; cases h
        | ok n =>
          rw [hn] at h
          by_cases halloc : env.memalign = 0
          · simp only [halloc, if_true] at h
            cases h
          · simp only [halloc, if_false] at h
            cases hre : env.realloc_ok with
            | false =>
              rw [hre, SDL_ReallocFormat_false] at h
              dsimp only at h
              split at h
              · cases h
              · cases h
            | true =>
              rw [hre, SDL_ReallocFormat_true] at h
              dsimp only at h
              injection h with h
              injection h with h1 h2
              subst h1
              exact ⟨hdims, hb, halloc, rfl, heap1, n, hfree, rfl, rfl, rfl, rfl, rfl, rfl, rfl, rfl, rfl⟩

/-- A mode-set that returns never changes the statics. -/
theorem setVideoMode_statics (fuel : Nat) (s s1 : State) (r : SurfaceRef)
    (width height bpp : Int) (flags : Nat) (env : Env)
    (h : libogc_SetVideoMode fuel s width height bpp flags env = Outcome.ok (s1, r)) :
    s1.statics = s.statics := by
  unfold libogc_SetVideoMode at h
  split at h
  · cases h
  · cases h
  · split at h
    · cases h; rfl
    · split at h
      · cases h; rfl
      · split at h
        · cases h
        · dsimp only at h
          cases hn : bufferBytes width height (toSizeT (Int.tdiv bpp 8)) with
          | outOfFuel => rw [hn] at h; cases h
          | undefined f => rw [hn] at h; cases h
          | ok n =>
            rw [hn] at h
            by_cases halloc : env.memalign = 0
            · simp only [halloc, if_true] at h
              cases h; rfl
            · simp only [halloc, if_false] at h
              cases hre : env.realloc_ok with
              | false =>
                rw [hre, SDL_ReallocFormat_false] at h
                dsimp only at h
                split at h
                · cases h
                · cases h; rfl
              | true =>
                rw [hre, SDL_ReallocFormat_true] at h
                dsimp only at h
                cases h; rfl

/-- A shutdown that returns never changes the statics. -/
theorem videoQuit_statics (s s1 : State) (h : libogc_VideoQuit s = Outcome.ok s1) :
    s1.statics = s.statics := by
  unfold libogc_VideoQuit at h
  split at h
  · split at h
    · cases h
    · cases h; rfl
  · cases h; rfl

/-- Initialisation of zero statics leaves them zero. -/
theorem videoInit_statics (s : State) (vformat : SDL_PixelFormat)
    (h : s.statics = initStatics) : (libogc_VideoInit s vformat).1.statics = initStatics := by
  unfold libogc_VideoInit
  simp only [h]
  rfl

/-- Nothing assigns `mode_640`, so in every reachable state both mode
descriptors still hold the zeros of static initialisation. -/
theorem reachable_statics (s : State) (hs : Reachable s) : s.statics = initStatics := by
  induction hs with
  | init s0 vformat h0 => exact videoInit_statics s0 vformat h0
  | reinit s vformat _ ih => exact videoInit_statics s vformat ih
  | setVideoMode s s1 r fuel width height bpp flags env _ hstep ih =>
    rw [setVideoMode_statics fuel s s1 r width height bpp flags env hstep]; exact ih
  | videoQuit s s1 _ hstep ih =>
    rw [videoQuit_statics s s1 hstep]; exact ih

/-- The listed modes are `mode_640` followed by `mode_320`. -/
theorem listedModes_eq (s : State) (format : SDL_PixelFormat) (flags : Nat) :
    listedModes s format flags = [s.statics.mode_640, s.statics.mode_320] := by
  rfl

/-- The release of the old buffer is defined when the private reference is
`NULL` or refers to an allocated block. -/
theorem free_existing_defined (s : State)
    (hbuf : s.hidden.buffer = 0 ∨ s.hidden.buffer ∈ s.heap.live) :
    ∃ heap1, (if s.hidden.buffer ≠ 0 then s.heap.free s.hidden.buffer else some s.heap) =
      some heap1 := by
  by_cases h0 : s.hidden.buffer = 0
  · exact ⟨s.heap, by simp [h0]⟩
  · rcases hbuf with h | h
    · exact absurd h h0
    · rw [if_pos h0]
      unfold Heap.free
      rw [if_pos h]
      exact ⟨_, rfl⟩

/-- A request equal to `mode_640` with a valid depth succeeds when the old
buffer can be released, the size does not overflow `int` and both allocations
succeed. -/
theorem setVideoMode_succeeds (fuel : Nat) (s : State) (width height bpp : Int) (flags : Nat)
    (env : Env)
    (hw : (s.statics.mode_640.w : Int) = width) (hh : (s.statics.mode_640.h : Int) = height)
    (hb : bpp = 8 ∨ bpp = 16 ∨ bpp = 24)
    (hbuf : s.hidden.buffer = 0 ∨ s.hidden.buffer ∈ s.heap.live)
    (hprod : width * height ≤ INT_MAX)
    (halloc : env.memalign ≠ 0) (hre : env.realloc_ok = true) :
    ∃ s1, libogc_SetVideoMode (fuel + 1) s width height bpp flags env =
      Outcome.ok (s1, SurfaceRef.current) := by
  obtain ⟨heap1, hfree⟩ := free_existing_defined s hbuf
  have hnn : 0 ≤ width * height := by
    rw [← hw, ← hh]; positivity
  have hn : bufferBytes width height (toSizeT (Int.tdiv bpp 8)) =
      Outcome.ok ((toSizeT (width * height) * toSizeT (Int.tdiv bpp 8)) % SIZE_MOD) := by
    unfold bufferBytes
    rw [if_neg]
    intro hc
    rcases hc with hc | hc
    · have : INT_MIN ≤ 0 := by decide
      omega
    · omega
  have hb2 : ¬ (bpp ≠ 8 ∧ bpp ≠ 16 ∧ bpp ≠ 24) := by omega
  unfold libogc_SetVideoMode
  rw [findMode_match s.statics width height fuel hw hh]
  dsimp only
  rw [if_neg (by decide), if_neg hb2, hfree]
  dsimp only
  rw [hn]
  dsimp only
  rw [if_neg halloc, hre, SDL_ReallocFormat_true]
  exact ⟨_, rfl⟩

/-! ## Heap facts -/

/-- Blocks live after a successful `memalign`. -/
theorem memalign_live (hp : Heap) (p n : Nat) (g : Nat → Nat) (hp0 : p ≠ 0) :
    (hp.memalign p n g).live = p :: hp.live := by
  unfold Heap.memalign
  rw [if_neg hp0]

/-- Event log after a successful `memalign`. -/
theorem memalign_log (hp : Heap) (p n : Nat) (g : Nat → Nat) (hp0 : p ≠ 0) :
    (hp.memalign p n g).log = hp.log ++ [HeapEvent.alloc p n] := by
  unfold Heap.memalign
  rw [if_neg hp0]

/-- Size of the block a successful `memalign` returns. -/
theorem memalign_size (hp : Heap) (p n : Nat) (g : Nat → Nat) (hp0 : p ≠ 0) :
    (hp.memalign p n g).size p = n := by
  unfold Heap.memalign
  rw [if_neg hp0]
  simp

/-- Bytes written by `SDL_memset(p, 0, n)`. -/
theorem memset0_bytes (hp : Heap) (p n i : Nat) (hi : i < n) :
    (hp.memset0 p n).bytes p i = 0 := by
  unfold Heap.memset0
  simp [hi]

/-- The size of an `int` product that fits `size_t` is computed exactly. -/
theorem bufferBytes_exact (width height bpp : Int) (n : Nat)
    (hb : bpp = 8 ∨ bpp = 16 ∨ bpp = 24) (hnn : 0 ≤ width * height)
    (hfit : width * height * (bpp / 8) < (SIZE_MOD : Int))
    (hn : bufferBytes width height (toSizeT (Int.tdiv bpp 8)) = Outcome.ok n) :
    (n : Int) = width * height * (bpp / 8) := by
  unfold bufferBytes at hn
  split at hn
  · cases hn
  · injection hn with hn
    subst hn
    have hS : (SIZE_MOD : Int) = 4294967296 := by decide
    rw [hS] at hfit
    have hSn : SIZE_MOD = 4294967296 := by decide
    generalize hP : width * height = P at *
    have hP1 : P < 4294967296 := by
      rcases hb with h | h | h <;> subst h <;> norm_num at hfit <;> omega
    have ht : toSizeT P = P.toNat := by
      unfold toSizeT
      rw [hS, Int.emod_eq_of_lt hnn hP1]
    rw [ht, hSn]
    rcases hb with h | h | h <;> subst h
    · have h1 : toSizeT (Int.tdiv 8 8) = 1 := by decide
      rw [h1]
      norm_num at hfit ⊢
      omega
    · have h1 : toSizeT (Int.tdiv 16 8) = 2 := by decide
      rw [h1]
      norm_num at hfit ⊢
      omega
    · have h1 : toSizeT (Int.tdiv 24 8) = 3 := by decide
      rw [h1]
      norm_num at hfit ⊢
      omega

/-! ## Properties of the specification -/

/-- C10: nothing assigns `mode_640`.  Starting from zero-initialised statics,
after `libogc_VideoInit` the list returned by `libogc_ListModes` holds two
descriptors, both of width 0 and height 0, and the search of
`libogc_SetVideoMode` stops at the first list entry exactly for the request
(0, 0); whenever the search returns at all, the request was (0, 0). -/
theorem modes_after_init (s0 : State) (vformat format : SDL_PixelFormat) (lflags : Nat)
    (h0 : s0.statics = initStatics) :
    (listedModes (libogc_VideoInit s0 vformat).1 format lflags).length = 2 ∧
    (∀ m ∈ listedModes (libogc_VideoInit s0 vformat).1 format lflags, m.w = 0 ∧ m.h = 0) ∧
    (∀ (width height : Int) (fuel : Nat),
      findMode (libogc_VideoInit s0 vformat).1.statics width height (fuel + 1)
          (modes_descending.headD RectPtr.null) = Outcome.ok (RectPtr.elem ModeObj.mode_640 0) ↔
        (width = 0 ∧ height = 0)) ∧
    (∀ (width height : Int) (fuel : Nat) (p : RectPtr),
      findMode (libogc_VideoInit s0 vformat).1.statics width height fuel
          (modes_descending.headD RectPtr.null) = Outcome.ok p →
        width = 0 ∧ height = 0) := by
  have hst : (libogc_VideoInit s0 vformat).1.statics = initStatics :=
    videoInit_statics s0 vformat h0
  refine ⟨rfl, ?_, ?_, ?_⟩
  · intro m hm
    rw [listedModes_eq, hst] at hm
    simp only [List.mem_cons, List.mem_singleton, List.not_mem_nil, or_false] at hm
    rcases hm with h | h <;> subst h <;> exact ⟨rfl, rfl⟩
  · intro width height fuel
    rw [hst]
    constructor
    · intro h
      obtain ⟨_, hw, hh⟩ := findMode_ok _ _ _ _ _ h
      exact ⟨hw.symm, hh.symm⟩
    · rintro ⟨hw, hh⟩
      exact findMode_match initStatics width height fuel hw.symm hh.symm
  · intro width height fuel p h
    rw [hst] at h
    obtain ⟨_, hw, hh⟩ := findMode_ok _ _ _ _ _ h
    exact ⟨hw.symm, hh.symm⟩

/-- Witness of C10 at the freshly created device. -/
theorem modes_after_init_witness :
    initState.statics = initStatics ∧
    (listedModes (libogc_VideoInit initState zeroFormat).1 zeroFormat 0).length = 2 ∧
    (∀ m ∈ listedModes (libogc_VideoInit initState zeroFormat).1 zeroFormat 0, m.w = 0 ∧ m.h = 0) :=
  ⟨rfl, (modes_after_init initState zeroFormat zeroFormat 0 rfl).1,
    (modes_after_init initState zeroFormat zeroFormat 0 rfl).2.1⟩

/-- With the zero table of every reachable state and a private buffer reference
that is `NULL` or allocated, the mode-set of a list entry at a valid depth with
both allocations succeeding returns the surface it was given, with `w`, `h`,
`pitch` and the private `w`, `h` as requested. -/
theorem setVideoMode_zero_table (s : State) (hs : Reachable s)
    (hbuf : s.hidden.buffer = 0 ∨ s.hidden.buffer ∈ s.heap.live)
    (format : SDL_PixelFormat) (lflags : Nat) (m : SDL_Rect)
    (hm : m ∈ listedModes s format lflags)
    (bpp : Int) (hbpp : bpp = 8 ∨ bpp = 16 ∨ bpp = 24) (flags : Nat) (env : Env)
    (halloc : env.memalign ≠ 0) (hre : env.realloc_ok = true) (fuel : Nat) :
    ∃ s1, libogc_SetVideoMode (fuel + 1) s m.w m.h bpp flags env =
        Outcome.ok (s1, SurfaceRef.current) ∧
      s1.screen.w = m.w ∧ s1.screen.h = m.h ∧
      (s1.screen.pitch : Int) = (m.w : Int) * (bpp / 8) ∧
      s1.hidden.w = m.w ∧ s1.hidden.h = m.h := by
  have hst := reachable_statics s hs
  have hm0 : m = zeroRect := by
    rw [listedModes_eq, hst] at hm
    simp only [List.mem_cons, List.mem_singleton, List.not_mem_nil, or_false] at hm
    rcases hm with h | h <;> exact h
  subst hm0
  have hw : (s.statics.mode_640.w : Int) = (zeroRect.w : Int) := by rw [hst]; rfl
  have hh : (s.statics.mode_640.h : Int) = (zeroRect.h : Int) := by rw [hst]; rfl
  obtain ⟨s1, h1⟩ := setVideoMode_succeeds fuel s zeroRect.w zeroRect.h bpp flags env hw hh hbpp
    hbuf (by decide) halloc hre
  obtain ⟨_, _, _, _, heap1, n, _, _, _, _, h_w, h_h, h_pitch, _, h_hid, _⟩ :=
    setVideoMode_current _ _ _ _ _ _ _ _ h1
  refine ⟨s1, h1, h_w, h_h, ?_, ?_, ?_⟩
  · rw [h_pitch]
    have : toSizeT ((zeroRect.w : Nat) : Int) = 0 := by decide
    rw [this]
    simp [zeroRect]
  · rw [h_hid]
  · rw [h_hid]

/-- C1, the code at two listed modes with a valid depth and both allocations
succeeding.  First, in the reachable state after initialisation, a successful
mode-set and a shutdown, the list entry 0x0 is requested: the private
reference still holds the released block 32 and the mode-set frees it a second
time instead of returning the surface.  Second, on a device whose full-size
descriptor is 640x480, the list holds 640x480 and 320x240 and the half-size
entry 320x240 is requested: the search steps past `mode_640` and reads out of
bounds instead of reaching the second entry. -/
theorem listed_mode_set_faults :
    Reachable (afterVideoQuit (afterSetVideoMode 1 readyState 0 0 16 0 (envOk 32))) ∧
    zeroRect ∈
      listedModes (afterVideoQuit (afterSetVideoMode 1 readyState 0 0 16 0 (envOk 32)))
        zeroFormat 0 ∧
    (envOk 64).memalign ≠ 0 ∧ (envOk 64).realloc_ok = true ∧
    libogc_SetVideoMode 1 (afterVideoQuit (afterSetVideoMode 1 readyState 0 0 16 0 (envOk 32)))
      zeroRect.w zeroRect.h 8 0 (envOk 64) = Outcome.undefined Fault.invalidFree ∧
    listedModes (tableState 640 480) zeroFormat 0 =
      [{ x := 0, y := 0, w := 640, h := 480 }, { x := 0, y := 0, w := 320, h := 240 }] ∧
    (tableState 640 480).hidden.buffer = 0 ∧ (tableState 640 480).heap.live = [] ∧
    libogc_SetVideoMode 2 (tableState 640 480) 320 240 16 0 (envOk 32) =
      Outcome.undefined Fault.outOfBoundsRead ∧
    libogc_SetVideoMode 100 (tableState 640 480) 320 240 16 0 (envOk 32) =
      Outcome.undefined Fault.outOfBoundsRead := by
  have hready : Reachable readyState := Reachable.init initState zeroFormat rfl
  have hset : Reachable (afterSetVideoMode 1 readyState 0 0 16 0 (envOk 32)) :=
    Reachable.setVideoMode readyState _ SurfaceRef.current 1 0 0 16 0 (envOk 32) hready rfl
  refine ⟨Reachable.videoQuit _ _ hset rfl, by decide, by decide, rfl, rfl, rfl, rfl, rfl,
    rfl, rfl⟩

/-- C8: after every successful mode-set with requested flags `f` the surface
flags are `SDL_DOUBLEBUF | (f & SDL_FULLSCREEN) | (f & SDL_HWPALETTE)`: the
double-buffer bit (30) is set, the fullscreen bit (31) and the hardware-palette
bit (29) are those of the request, and every other bit is clear, whatever the
surface flags were before. -/
theorem setVideoMode_flags (fuel : Nat) (s s1 : State) (width height bpp : Int) (f : Nat)
    (env : Env)
    (h : libogc_SetVideoMode fuel s width height bpp f env =
      Outcome.ok (s1, SurfaceRef.current)) :
    s1.screen.flags = SDL_DOUBLEBUF ||| (f &&& SDL_FULLSCREEN) ||| (f &&& SDL_HWPALETTE) ∧
    s1.screen.flags &&& SDL_DOUBLEBUF = SDL_DOUBLEBUF ∧
    s1.screen.flags &&& SDL_FULLSCREEN = f &&& SDL_FULLSCREEN ∧
    s1.screen.flags &&& SDL_HWPALETTE = f &&& SDL_HWPALETTE ∧
    ∀ i, i ≠ 29 → i ≠ 30 → i ≠ 31 → s1.screen.flags.testBit i = false := by
  obtain ⟨_, _, _, _, heap1, n, _, _, _, h_flags, _⟩ := setVideoMode_current _ _ _ _ _ _ _ _ h
  have hD : SDL_DOUBLEBUF = 2 ^ 30 := by decide
  have hF : SDL_FULLSCREEN = 2 ^ 31 := by decide
  have hP : SDL_HWPALETTE = 2 ^ 29 := by decide
  rw [h_flags]
  refine ⟨rfl, ?_, ?_, ?_, ?_⟩
  · apply Nat.eq_of_testBit_eq
    intro i
    rw [hD, hF, hP]
    simp only [Nat.testBit_and, Nat.testBit_or, Nat.testBit_two_pow]
    by_cases h30 : 30 = i
    · simp [h30]
    · simp [h30]
  · apply Nat.eq_of_testBit_eq
    intro i
    rw [hD, hF, hP]
    simp only [Nat.testBit_and, Nat.testBit_or, Nat.testBit_two_pow]
    by_cases h31 : 31 = i
    · subst h31; simp
    · simp [h31]
  · apply Nat.eq_of_testBit_eq
    intro i
    rw [hD, hF, hP]
    simp only [Nat.testBit_and, Nat.testBit_or, Nat.testBit_two_pow]
    by_cases h29 : 29 = i
    · subst h29; simp
    · simp [h29]
  · intro i h29 h30 h31
    rw [hD, hF, hP]
    simp only [Nat.testBit_and, Nat.testBit_or, Nat.testBit_two_pow]
    simp [Ne.symm h29, Ne.symm h30, Ne.symm h31]

/-- Witness of C8: a request with every flag bit set, on the initialised device. -/
theorem setVideoMode_flags_witness :
    libogc_SetVideoMode 1 readyState 0 0 16 0xFFFFFFFF (envOk 32) =
        Outcome.ok (afterSetVideoMode 1 readyState 0 0 16 0xFFFFFFFF (envOk 32),
          SurfaceRef.current) ∧
    (afterSetVideoMode 1 readyState 0 0 16 0xFFFFFFFF (envOk 32)).screen.flags =
      SDL_DOUBLEBUF ||| (0xFFFFFFFF &&& SDL_FULLSCREEN) ||| (0xFFFFFFFF &&& SDL_HWPALETTE) :=
  ⟨rfl, (setVideoMode_flags 1 readyState _ 0 0 16 0xFFFFFFFF (envOk 32) rfl).1⟩

/-- The buffer of a successful mode-set, for any statics: it is the block
`memalign` just returned, its size is the value of
`width * height * bytes_per_pixel`, which is exact when it fits `size_t`, and
all its bytes are zero. -/
theorem setVideoMode_buffer_of_fit (fuel : Nat) (s s1 : State) (width height bpp : Int)
    (flags : Nat) (env : Env)
    (h : libogc_SetVideoMode fuel s width height bpp flags env =
      Outcome.ok (s1, SurfaceRef.current))
    (hfit : width * height * (bpp / 8) < (SIZE_MOD : Int)) :
    s1.screen.pixels = env.memalign ∧ s1.screen.pixels ≠ 0 ∧
    s1.screen.pixels ∈ s1.heap.live ∧
    (∃ older, s1.heap.log =
      older ++ [HeapEvent.alloc s1.screen.pixels (s1.heap.size s1.screen.pixels)]) ∧
    (s1.heap.size s1.screen.pixels : Int) = width * height * (bpp / 8) ∧
    (∀ i, i < s1.heap.size s1.screen.pixels → s1.heap.bytes s1.screen.pixels i = 0) := by
  obtain ⟨⟨hw, hh⟩, hb, halloc, _, heap1, n, _, hn, h_heap, _, _, _, _, h_pix, _, _⟩ :=
    setVideoMode_current _ _ _ _ _ _ _ _ h
  have hnn : 0 ≤ width * height := by
    rw [← hw, ← hh]; positivity
  have hsize : s1.heap.size env.memalign = n := by
    rw [h_heap]
    exact memalign_size heap1 env.memalign n env.garbage halloc
  rw [h_pix, hsize]
  refine ⟨rfl, halloc, ?_, ⟨heap1.log, ?_⟩, ?_, ?_⟩
  · rw [h_heap]
    show env.memalign ∈ (heap1.memalign env.memalign n env.garbage).live
    rw [memalign_live heap1 env.memalign n env.garbage halloc]
    exact List.mem_cons_self _ _
  · rw [h_heap]
    exact memalign_log heap1 env.memalign n env.garbage halloc
  · exact bufferBytes_exact width height bpp n hb hnn hfit hn
  · intro i hi
    rw [h_heap]
    exact memset0_bytes _ _ _ _ hi

/-- The size the driver computes for 320x240 at 16 bits per pixel. -/
theorem bufferBytes_320_240_16 :
    bufferBytes 320 240 (toSizeT (Int.tdiv 16 8)) = Outcome.ok 153600 := by
  rfl

/-- C6: from a device with no buffer (private reference `NULL`, nothing
allocated), after two successful mode-sets in a row exactly one framebuffer is
allocated and not freed; the surface's pixels pointer and the private
reference both designate it; and the heap events of the two calls are, in
order, the allocation of the first buffer, its release, and the allocation of
the second. -/
theorem two_modesets_one_buffer (s0 s1 s2 : State)
    (hbuf0 : s0.hidden.buffer = 0) (hlive0 : s0.heap.live = [])
    (fuel1 : Nat) (w1 h1 bpp1 : Int) (f1 : Nat) (env1 : Env)
    (fuel2 : Nat) (w2 h2 bpp2 : Int) (f2 : Nat) (env2 : Env)
    (hcall1 : libogc_SetVideoMode fuel1 s0 w1 h1 bpp1 f1 env1 =
      Outcome.ok (s1, SurfaceRef.current))
    (hcall2 : libogc_SetVideoMode fuel2 s1 w2 h2 bpp2 f2 env2 =
      Outcome.ok (s2, SurfaceRef.current)) :
    s2.heap.live.length = 1 ∧
    s2.heap.live = [s2.screen.pixels] ∧
    s2.hidden.buffer = s2.screen.pixels ∧
    s2.screen.pixels = env2.memalign ∧ s2.screen.pixels ≠ 0 ∧
    s1.heap.live = [env1.memalign] ∧ s1.screen.pixels = env1.memalign ∧
    ∃ n1 n2, s2.heap.log = s0.heap.log ++
      [HeapEvent.alloc env1.memalign n1, HeapEvent.free env1.memalign,
        HeapEvent.alloc env2.memalign n2] := by
  obtain ⟨_, _, ha1, _, heapA, n1, hfreeA, _, h_heap1, _, _, _, _, h_pix1, h_hid1, _⟩ :=
    setVideoMode_current _ _ _ _ _ _ _ _ hcall1
  obtain ⟨_, _, ha2, _, heapB, n2, hfreeB, _, h_heap2, _, _, _, _, h_pix2, h_hid2, _⟩ :=
    setVideoMode_current _ _ _ _ _ _ _ _ hcall2
  -- the first call releases nothing
  have hA : heapA = s0.heap := by
    rw [if_neg (by simp [hbuf0])] at hfreeA
    injection hfreeA with hfreeA
    exact hfreeA.symm
  subst hA
  have hlive1 : s1.heap.live = [env1.memalign] := by
    rw [h_heap1]
    show (s0.heap.memalign env1.memalign n1 env1.garbage).live = _
    rw [memalign_live _ _ _ _ ha1, hlive0]
  have hlog1 : s1.heap.log = s0.heap.log ++ [HeapEvent.alloc env1.memalign n1] := by
    rw [h_heap1]
    exact memalign_log _ _ _ _ ha1
  -- the second call releases the first buffer
  have hb1 : s1.hidden.buffer = env1.memalign := by rw [h_hid1]
  have hB : heapB.live = [] ∧ heapB.log = s1.heap.log ++ [HeapEvent.free env1.memalign] := by
    rw [hb1, if_pos ha1] at hfreeB
    unfold Heap.free at hfreeB
    rw [if_pos (by rw [hlive1]; exact List.mem_cons_self _ _)] at hfreeB
    injection hfreeB with hfreeB
    subst hfreeB
    refine ⟨?_, rfl⟩
    show s1.heap.live.erase env1.memalign = []
    rw [hlive1]
    simp
  have hlive2 : s2.heap.live = [env2.memalign] := by
    rw [h_heap2]
    show (heapB.memalign env2.memalign n2 env2.garbage).live = _
    rw [memalign_live _ _ _ _ ha2, hB.1]
  have hlog2 : s2.heap.log = heapB.log ++ [HeapEvent.alloc env2.memalign n2] := by
    rw [h_heap2]
    exact memalign_log _ _ _ _ ha2
  refine ⟨by rw [hlive2]; rfl, by rw [hlive2, h_pix2], by rw [h_hid2, h_pix2], h_pix2,
    by rw [h_pix2]; exact ha2, hlive1, h_pix1, n1, n2, ?_⟩
  rw [hlog2, hB.2, hlog1]
  simp

/-- Witness of C6: a 16-bit mode-set followed by an 8-bit one. -/
theorem two_modesets_one_buffer_witness :
    readyState.hidden.buffer = 0 ∧ readyState.heap.live = [] ∧
    libogc_SetVideoMode 1 readyState 0 0 16 0 (envOk 32) =
      Outcome.ok (afterSetVideoMode 1 readyState 0 0 16 0 (envOk 32), SurfaceRef.current) ∧
    libogc_SetVideoMode 1 (afterSetVideoMode 1 readyState 0 0 16 0 (envOk 32)) 0 0 8 0 (envOk 64) =
      Outcome.ok (afterSetVideoMode 1 (afterSetVideoMode 1 readyState 0 0 16 0 (envOk 32))
        0 0 8 0 (envOk 64), SurfaceRef.current) ∧
    (afterSetVideoMode 1 (afterSetVideoMode 1 readyState 0 0 16 0 (envOk 32))
        0 0 8 0 (envOk 64)).heap.live.length = 1 :=
  ⟨rfl, rfl, rfl, rfl,
    (two_modesets_one_buffer readyState _ _ rfl rfl 1 0 0 16 0 (envOk 32) 1 0 0 8 0 (envOk 64)
      rfl rfl).1⟩

/-- C7: `libogc_VideoQuit` changes nothing on a device whose surface has no
pixel buffer; right after a successful mode-set it releases the surface's
buffer and clears the pixels pointer; and it is idempotent: a second call
after a first one that returned changes nothing and frees nothing, so that
running it twice equals running it once. -/
theorem videoQuit_idempotent :
    (∀ s : State, s.screen.pixels = 0 → libogc_VideoQuit s = Outcome.ok s) ∧
    (∀ (fuel : Nat) (s s1 : State) (width height bpp : Int) (flags : Nat) (env : Env),
      libogc_SetVideoMode fuel s width height bpp flags env =
          Outcome.ok (s1, SurfaceRef.current) →
        ∃ s2, libogc_VideoQuit s1 = Outcome.ok s2 ∧ s2.screen.pixels = 0 ∧
          s1.screen.pixels ≠ 0 ∧ s1.screen.pixels ∈ s1.heap.live ∧
          s2.heap.live = s1.heap.live.erase s1.screen.pixels ∧
          s2.heap.log = s1.heap.log ++ [HeapEvent.free s1.screen.pixels]) ∧
    (∀ s s1 : State, libogc_VideoQuit s = Outcome.ok s1 →
        libogc_VideoQuit s1 = Outcome.ok s1) ∧
    (∀ s : State, (libogc_VideoQuit s).bind libogc_VideoQuit = libogc_VideoQuit s) := by
  have hnull : ∀ s : State, s.screen.pixels = 0 → libogc_VideoQuit s = Outcome.ok s := by
    intro s h
    unfold libogc_VideoQuit
    rw [if_neg (by simp [h])]
  have hsecond : ∀ s s1 : State, libogc_VideoQuit s = Outcome.ok s1 →
      libogc_VideoQuit s1 = Outcome.ok s1 := by
    intro s s1 h
    apply hnull
    unfold libogc_VideoQuit at h
    split at h
    · split at h
      · cases h
      · cases h; rfl
    · next hp =>
      cases h
      simpa using hp
  refine ⟨hnull, ?_, hsecond, ?_⟩
  · intro fuel s s1 width height bpp flags env h
    obtain ⟨_, _, halloc, _, heap1, n, _, _, h_heap, _, _, _, _, h_pix, _, _⟩ :=
      setVideoMode_current _ _ _ _ _ _ _ _ h
    have hmem : s1.screen.pixels ∈ s1.heap.live := by
      rw [h_pix, h_heap]
      show env.memalign ∈ (heap1.memalign env.memalign n env.garbage).live
      rw [memalign_live _ _ _ _ halloc]
      exact List.mem_cons_self _ _
    have hne : s1.screen.pixels ≠ 0 := by rw [h_pix]; exact halloc
    unfold libogc_VideoQuit
    rw [if_pos hne]
    unfold Heap.free
    rw [if_pos hmem]
    exact ⟨_, rfl, rfl, hne, hmem, rfl, rfl⟩
  · intro s
    cases hq : libogc_VideoQuit s with
    | ok s1 => exact hsecond s s1 hq
    | undefined f => rfl
    | outOfFuel => rfl

/-- Witness of C7: shutdown of the initialised device, and shutdown after the
16-bit mode-set. -/
theorem videoQuit_idempotent_witness :
    readyState.screen.pixels = 0 ∧
    libogc_VideoQuit readyState = Outcome.ok readyState ∧
    libogc_SetVideoMode 1 readyState 0 0 16 0 (envOk 32) =
      Outcome.ok (afterSetVideoMode 1 readyState 0 0 16 0 (envOk 32), SurfaceRef.current) ∧
    (∃ s2, libogc_VideoQuit (afterSetVideoMode 1 readyState 0 0 16 0 (envOk 32)) =
        Outcome.ok s2 ∧ s2.screen.pixels = 0 ∧
      (afterSetVideoMode 1 readyState 0 0 16 0 (envOk 32)).screen.pixels ≠ 0 ∧
      (afterSetVideoMode 1 readyState 0 0 16 0 (envOk 32)).screen.pixels ∈
        (afterSetVideoMode 1 readyState 0 0 16 0 (envOk 32)).heap.live ∧
      s2.heap.live = (afterSetVideoMode 1 readyState 0 0 16 0 (envOk 32)).heap.live.erase
        (afterSetVideoMode 1 readyState 0 0 16 0 (envOk 32)).screen.pixels ∧
      s2.heap.log = (afterSetVideoMode 1 readyState 0 0 16 0 (envOk 32)).heap.log ++
        [HeapEvent.free (afterSetVideoMode 1 readyState 0 0 16 0 (envOk 32)).screen.pixels]) :=
  ⟨rfl, videoQuit_idempotent.1 readyState rfl, rfl,
    videoQuit_idempotent.2.1 1 readyState _ 0 0 16 0 (envOk 32) rfl⟩

/-- A mode-set that returns has left the search loop with a pointer. -/
theorem setVideoMode_ok_found (fuel : Nat) (s s1 : State) (r : SurfaceRef)
    (width height bpp : Int) (flags : Nat) (env : Env)
    (h : libogc_SetVideoMode fuel s width height bpp flags env = Outcome.ok (s1, r)) :
    (s.statics.mode_640.w : Int) = width ∧ (s.statics.mode_640.h : Int) = height := by
  unfold libogc_SetVideoMode at h
  split at h
  · cases h
  · cases h
  · next mode hfind => exact (findMode_ok _ _ _ _ _ hfind).2

/-- C2, the code at a request that equals no entry of the mode list: the
search steps the descriptor pointer past `mode_640` and reads out of bounds;
the mode-set never returns, so it neither yields `NULL` nor reports the
unsupported-mode error. -/
theorem setVideoMode_unlisted_mode (s : State) (format : SDL_PixelFormat) (lflags : Nat)
    (width height bpp : Int) (flags : Nat) (env : Env)
    (hno : ∀ m ∈ listedModes s format lflags, ¬ ((m.w : Int) = width ∧ (m.h : Int) = height)) :
    (∀ fuel, libogc_SetVideoMode (fuel + 2) s width height bpp flags env =
      Outcome.undefined Fault.outOfBoundsRead) ∧
    (∀ fuel s1 r, libogc_SetVideoMode fuel s width height bpp flags env ≠
      Outcome.ok (s1, r)) := by
  have hne : ¬ ((s.statics.mode_640.w : Int) = width ∧ (s.statics.mode_640.h : Int) = height) :=
    hno s.statics.mode_640 (by rw [listedModes_eq]; exact List.mem_cons_self _ _)
  refine ⟨fun fuel => setVideoMode_mismatch fuel s width height bpp flags env hne, ?_⟩
  intro fuel s1 r h
  exact hne (setVideoMode_ok_found fuel s s1 r width height bpp flags env h)

/-- C2 at the failing input: 800x600 at 16 bits on the initialised device. -/
theorem setVideoMode_unlisted_mode_witness :
    (∀ m ∈ listedModes readyState zeroFormat 0, ¬ ((m.w : Int) = 800 ∧ (m.h : Int) = 600)) ∧
    libogc_SetVideoMode 2 readyState 800 600 16 0 (envOk 32) =
      Outcome.undefined Fault.outOfBoundsRead :=
  ⟨by decide,
    (setVideoMode_unlisted_mode readyState zeroFormat 0 800 600 16 0 (envOk 32) (by decide)).1 0⟩

/-- C3, the code at an unsupported depth: when the request equals `mode_640`
the mode-set returns `NULL`, reports the depth error and changes nothing else;
for any other size it reads out of bounds in the search, before the depth is
looked at. -/
theorem setVideoMode_bad_depth (s : State) (width height bpp : Int) (flags : Nat) (env : Env)
    (hbpp : bpp ≠ 8 ∧ bpp ≠ 16 ∧ bpp ≠ 24) :
    (((s.statics.mode_640.w : Int) = width ∧ (s.statics.mode_640.h : Int) = height) →
      ∀ fuel, libogc_SetVideoMode (fuel + 1) s width height bpp flags env =
        Outcome.ok ({ s with error := some (SDLError.unsupportedBpp bpp) }, SurfaceRef.null)) ∧
    (¬ ((s.statics.mode_640.w : Int) = width ∧ (s.statics.mode_640.h : Int) = height) →
      ∀ fuel, libogc_SetVideoMode (fuel + 2) s width height bpp flags env =
        Outcome.undefined Fault.outOfBoundsRead) := by
  constructor
  · rintro ⟨hw, hh⟩ fuel
    unfold libogc_SetVideoMode
    rw [findMode_match s.statics width height fuel hw hh]
    dsimp only
    rw [if_neg (by decide), if_pos hbpp]
  · intro hne fuel
    exact setVideoMode_mismatch fuel s width height bpp flags env hne

/-- C3 at the failing input: 640x480 at 32 bits on the initialised device. -/
theorem setVideoMode_bad_depth_witness :
    ((32 : Int) ≠ 8 ∧ (32 : Int) ≠ 16 ∧ (32 : Int) ≠ 24) ∧
    ¬ ((readyState.statics.mode_640.w : Int) = 640 ∧
      (readyState.statics.mode_640.h : Int) = 480) ∧
    libogc_SetVideoMode 2 readyState 640 480 32 0 (envOk 32) =
      Outcome.undefined Fault.outOfBoundsRead :=
  ⟨by decide, by decide,
    (setVideoMode_bad_depth readyState 640 480 32 0 (envOk 32) (by decide)).2 (by decide) 0⟩

/-- C4, the code at a failing mode-set on a device that holds a buffer.  After
a successful 16-bit mode-set (buffer at 32), a mode-set whose `memalign` fails,
and one whose `SDL_ReallocFormat` fails, both return `NULL` with an error, have
released every buffer and cleared the private reference, but leave the
surface's pixels pointer at the released block 32. -/
theorem failed_modeset_keeps_stale_pixels :
    libogc_SetVideoMode 1 readyState 0 0 16 0 (envOk 32) =
      Outcome.ok (afterSetVideoMode 1 readyState 0 0 16 0 (envOk 32), SurfaceRef.current) ∧
    (afterSetVideoMode 1 readyState 0 0 16 0 (envOk 32)).screen.pixels = 32 ∧
    (afterSetVideoMode 1 readyState 0 0 16 0 (envOk 32)).hidden.buffer = 32 ∧
    (afterSetVideoMode 1 readyState 0 0 16 0 (envOk 32)).heap.live = [32] ∧
    (∃ s2, libogc_SetVideoMode 1 (afterSetVideoMode 1 readyState 0 0 16 0 (envOk 32))
          0 0 16 0 envNoMem = Outcome.ok (s2, SurfaceRef.null) ∧
      s2.error = some SDLError.bufferAlloc ∧ s2.hidden.buffer = 0 ∧ s2.heap.live = [] ∧
      s2.heap.log = [HeapEvent.alloc 32 0, HeapEvent.free 32] ∧
      s2.screen.pixels = 32 ∧ s2.screen.pixels ∉ s2.heap.live) ∧
    (∃ s3, libogc_SetVideoMode 1 (afterSetVideoMode 1 readyState 0 0 16 0 (envOk 32))
          0 0 16 0 (envNoFormat 64) = Outcome.ok (s3, SurfaceRef.null) ∧
      s3.error = some SDLError.formatAlloc ∧ s3.hidden.buffer = 0 ∧ s3.heap.live = [] ∧
      s3.heap.log = [HeapEvent.alloc 32 0, HeapEvent.free 32, HeapEvent.alloc 64 0,
        HeapEvent.free 64] ∧
      s3.screen.pixels = 32 ∧ s3.screen.pixels ∉ s3.heap.live) := by
  refine ⟨rfl, rfl, rfl, rfl, ⟨_, rfl, rfl, rfl, rfl, rfl, rfl, ?_⟩,
    ⟨_, rfl, rfl, rfl, rfl, rfl, rfl, ?_⟩⟩
  · decide
  · decide

/-- C5, the code on two call sequences that start with initialisation.
Shutdown after a successful mode-set frees the block through the surface and
leaves the private reference at the released block 32, so the next mode-set
frees it a second time.  A mode-set whose allocation fails leaves the
surface's pointer at the released block, so the shutdown that follows frees
it a second time. -/
theorem private_buffer_dangles :
    Reachable (afterVideoQuit (afterSetVideoMode 1 readyState 0 0 16 0 (envOk 32))) ∧
    libogc_VideoQuit (afterSetVideoMode 1 readyState 0 0 16 0 (envOk 32)) =
      Outcome.ok (afterVideoQuit (afterSetVideoMode 1 readyState 0 0 16 0 (envOk 32))) ∧
    (afterVideoQuit (afterSetVideoMode 1 readyState 0 0 16 0 (envOk 32))).hidden.buffer = 32 ∧
    (afterVideoQuit (afterSetVideoMode 1 readyState 0 0 16 0 (envOk 32))).heap.live = [] ∧
    (afterVideoQuit (afterSetVideoMode 1 readyState 0 0 16 0 (envOk 32))).heap.log =
      [HeapEvent.alloc 32 0, HeapEvent.free 32] ∧
    libogc_SetVideoMode 1 (afterVideoQuit (afterSetVideoMode 1 readyState 0 0 16 0 (envOk 32)))
      0 0 16 0 (envOk 64) = Outcome.undefined Fault.invalidFree ∧
    Reachable (afterSetVideoMode 1 (afterSetVideoMode 1 readyState 0 0 16 0 (envOk 32))
      0 0 16 0 envNoMem) ∧
    libogc_VideoQuit (afterSetVideoMode 1 (afterSetVideoMode 1 readyState 0 0 16 0 (envOk 32))
      0 0 16 0 envNoMem) = Outcome.undefined Fault.invalidFree := by
  have hready : Reachable readyState := Reachable.init initState zeroFormat rfl
  have hset : Reachable (afterSetVideoMode 1 readyState 0 0 16 0 (envOk 32)) :=
    Reachable.setVideoMode readyState _ SurfaceRef.current 1 0 0 16 0 (envOk 32) hready rfl
  refine ⟨?_, rfl, rfl, rfl, rfl, rfl, ?_, rfl⟩
  · exact Reachable.videoQuit _ _ hset rfl
  · exact Reachable.setVideoMode _ _ SurfaceRef.null 1 0 0 16 0 envNoMem hset rfl

/-- The pitch `current->w * bytes_per_pixel`, stored in a `Uint16`, is exact
when it fits 16 bits. -/
theorem pitch_exact (width bpp : Int) (hb : bpp = 8 ∨ bpp = 16 ∨ bpp = 24) (hnn : 0 ≤ width)
    (hfit : width * (bpp / 8) < 65536) :
    ((((toSizeT width * toSizeT (Int.tdiv bpp 8)) % SIZE_MOD) % 2 ^ 16 : Nat) : Int) =
      width * (bpp / 8) := by
  have hS : (SIZE_MOD : Int) = 4294967296 := by decide
  have hSn : SIZE_MOD = 4294967296 := by decide
  have hW : width < 65536 := by
    rcases hb with h | h | h <;> subst h <;> norm_num at hfit <;> omega
  have ht : toSizeT width = width.toNat := by
    unfold toSizeT
    rw [hS, Int.emod_eq_of_lt hnn (by omega)]
  rw [ht, hSn]
  rcases hb with h | h | h <;> subst h
  · have h1 : toSizeT (Int.tdiv 8 8) = 1 := by decide
    rw [h1]
    norm_num at hfit ⊢
    omega
  · have h1 : toSizeT (Int.tdiv 16 8) = 2 := by decide
    rw [h1]
    norm_num at hfit ⊢
    omega
  · have h1 : toSizeT (Int.tdiv 24 8) = 3 := by decide
    rw [h1]
    norm_num at hfit ⊢
    omega

/-- The mode-set of the full-size mode, for any value of `mode_640`: with a
valid depth, a sound private reference, a size within `int` and both
allocations succeeding, it returns the surface with the requested `w` and `h`,
and with `pitch` the width times the bytes per pixel when that fits 16 bits. -/
theorem setVideoMode_full_mode (fuel : Nat) (s : State) (bpp : Int) (flags : Nat) (env : Env)
    (hb : bpp = 8 ∨ bpp = 16 ∨ bpp = 24)
    (hbuf : s.hidden.buffer = 0 ∨ s.hidden.buffer ∈ s.heap.live)
    (hprod : (s.statics.mode_640.w : Int) * (s.statics.mode_640.h : Int) ≤ INT_MAX)
    (hpitch : (s.statics.mode_640.w : Int) * (bpp / 8) < 65536)
    (halloc : env.memalign ≠ 0) (hre : env.realloc_ok = true) :
    ∃ s1, libogc_SetVideoMode (fuel + 1) s s.statics.mode_640.w s.statics.mode_640.h bpp flags
        env = Outcome.ok (s1, SurfaceRef.current) ∧
      s1.screen.w = s.statics.mode_640.w ∧ s1.screen.h = s.statics.mode_640.h ∧
      (s1.screen.pitch : Int) = (s.statics.mode_640.w : Int) * (bpp / 8) ∧
      s1.hidden.w = s.statics.mode_640.w ∧ s1.hidden.h = s.statics.mode_640.h := by
  obtain ⟨s1, h1⟩ := setVideoMode_succeeds fuel s s.statics.mode_640.w s.statics.mode_640.h bpp
    flags env rfl rfl hb hbuf hprod halloc hre
  obtain ⟨_, _, _, _, heap1, n, _, _, _, _, h_w, h_h, h_pitch, _, h_hid, _⟩ :=
    setVideoMode_current _ _ _ _ _ _ _ _ h1
  refine ⟨s1, h1, h_w, h_h, ?_, by rw [h_hid], by rw [h_hid]⟩
  rw [h_pitch]
  exact pitch_exact _ bpp hb (by positivity) hpitch

/-- Initialisation leaves the private reference `NULL`. -/
theorem videoInit_buffer (s : State) (vformat : SDL_PixelFormat) :
    (libogc_VideoInit s vformat).1.hidden.buffer = 0 := by
  rfl

/-- Mode-sets keep the private reference sound: if it was `NULL` or allocated
before a mode-set that returns, it is `NULL` or allocated after it. -/
theorem setVideoMode_buffer_ok (fuel : Nat) (s s1 : State) (r : SurfaceRef)
    (width height bpp : Int) (flags : Nat) (env : Env)
    (hbuf : s.hidden.buffer = 0 ∨ s.hidden.buffer ∈ s.heap.live)
    (h : libogc_SetVideoMode fuel s width height bpp flags env = Outcome.ok (s1, r)) :
    s1.hidden.buffer = 0 ∨ s1.hidden.buffer ∈ s1.heap.live := by
  unfold libogc_SetVideoMode at h
  split at h
  · cases h
  · cases h
  · split at h
    · cases h; exact hbuf
    · split at h
      · cases h; exact hbuf
      · split at h
        · cases h
        · next heap1 _ =>
          dsimp only at h
          cases hn : bufferBytes width height (toSizeT (Int.tdiv bpp 8)) with
          | outOfFuel => rw [hn] at h; cases h
          | undefined f => rw [hn] at h; cases h
          | ok n =>
            rw [hn] at h
            by_cases halloc : env.memalign = 0
            · simp only [halloc, if_true] at h
              cases h; exact Or.inl rfl
            · simp only [halloc, if_false] at h
              cases hre : env.realloc_ok with
              | false =>
                rw [hre, SDL_ReallocFormat_false] at h
                dsimp only at h
                split at h
                · cases h
                · cases h; exact Or.inl rfl
              | true =>
                rw [hre, SDL_ReallocFormat_true] at h
                dsimp only at h
                cases h
                right
                show env.memalign ∈ (heap1.memalign env.memalign n env.garbage).live
                rw [memalign_live _ _ _ _ halloc]
                exact List.mem_cons_self _ _

/-- A shutdown that returns leaves the private data as it was: the private
buffer reference is not cleared. -/
theorem videoQuit_hidden (s s1 : State) (h : libogc_VideoQuit s = Outcome.ok s1) :
    s1.hidden = s.hidden := by
  unfold libogc_VideoQuit at h
  split at h
  · split at h
    · cases h
    · cases h; rfl
  · cases h; rfl

/-- The failure path of `memalign`, for any state: the old buffer is released,
the private reference cleared, the error reported and `NULL` returned; the
surface record, its pixels pointer included, is left as it was. -/
theorem setVideoMode_memalign_fails (fuel : Nat) (s : State) (width height bpp : Int)
    (flags : Nat) (env : Env) (heap1 : Heap)
    (hw : (s.statics.mode_640.w : Int) = width) (hh : (s.statics.mode_640.h : Int) = height)
    (hb : bpp = 8 ∨ bpp = 16 ∨ bpp = 24)
    (hfree : (if s.hidden.buffer ≠ 0 then s.heap.free s.hidden.buffer else some s.heap) =
      some heap1)
    (hprod : width * height ≤ INT_MAX)
    (halloc : env.memalign = 0) :
    libogc_SetVideoMode (fuel + 1) s width height bpp flags env =
      Outcome.ok ({ s with
                      hidden := { s.hidden with buffer := 0 }
                      heap := heap1
                      error := some SDLError.bufferAlloc }, SurfaceRef.null) := by
  have hnn : 0 ≤ width * height := by
    rw [← hw, ← hh]; positivity
  have hn : bufferBytes width height (toSizeT (Int.tdiv bpp 8)) =
      Outcome.ok ((toSizeT (width * height) * toSizeT (Int.tdiv bpp 8)) % SIZE_MOD) := by
    unfold bufferBytes
    rw [if_neg]
    intro hc
    rcases hc with hc | hc
    · have : INT_MIN ≤ 0 := by decide
      omega
    · omega
  have hb2 : ¬ (bpp ≠ 8 ∧ bpp ≠ 16 ∧ bpp ≠ 24) := by omega
  unfold libogc_SetVideoMode
  rw [findMode_match s.statics width height fuel hw hh]
  dsimp only
  rw [if_neg (by decide), if_neg hb2, hfree]
  dsimp only
  rw [hn]
  dsimp only
  rw [if_pos halloc]
  unfold Heap.memalign
  rw [if_pos halloc]

/-- The failure path of `SDL_ReallocFormat`, for any state: the old buffer and
the new one are released, the private reference cleared, the error reported and
`NULL` returned; the surface's pixels pointer is left as it was. -/
theorem setVideoMode_realloc_fails (fuel : Nat) (s : State) (width height bpp : Int)
    (flags : Nat) (env : Env) (heap1 : Heap)
    (hw : (s.statics.mode_640.w : Int) = width) (hh : (s.statics.mode_640.h : Int) = height)
    (hb : bpp = 8 ∨ bpp = 16 ∨ bpp = 24)
    (hfree : (if s.hidden.buffer ≠ 0 then s.heap.free s.hidden.buffer else some s.heap) =
      some heap1)
    (hprod : width * height ≤ INT_MAX)
    (halloc : env.memalign ≠ 0) (hre : env.realloc_ok = false) :
    ∃ s1 n, libogc_SetVideoMode (fuel + 1) s width height bpp flags env =
        Outcome.ok (s1, SurfaceRef.null) ∧
      s1.error = some SDLError.formatAlloc ∧ s1.hidden.buffer = 0 ∧
      s1.screen.pixels = s.screen.pixels ∧
      s1.heap.live = heap1.live ∧
      s1.heap.log = heap1.log ++ [HeapEvent.alloc env.memalign n, HeapEvent.free env.memalign] := by
  have hnn : 0 ≤ width * height := by
    rw [← hw, ← hh]; positivity
  have hn : bufferBytes width height (toSizeT (Int.tdiv bpp 8)) =
      Outcome.ok ((toSizeT (width * height) * toSizeT (Int.tdiv bpp 8)) % SIZE_MOD) := by
    unfold bufferBytes
    rw [if_neg]
    intro hc
    rcases hc with hc | hc
    · have : INT_MIN ≤ 0 := by decide
      omega
    · omega
  have hb2 : ¬ (bpp ≠ 8 ∧ bpp ≠ 16 ∧ bpp ≠ 24) := by omega
  unfold libogc_SetVideoMode
  rw [findMode_match s.statics width height fuel hw hh]
  dsimp only
  rw [if_neg (by decide), if_neg hb2, hfree]
  dsimp only
  rw [hn]
  dsimp only
  rw [if_neg halloc, hre, SDL_ReallocFormat_false]
  dsimp only
  unfold Heap.free
  rw [if_pos (by rw [memalign_live _ _ _ _ halloc]; exact List.mem_cons_self _ _)]
  dsimp only
  refine ⟨_, (toSizeT (width * height) * toSizeT (Int.tdiv bpp 8)) % SIZE_MOD,
    rfl, rfl, rfl, rfl, ?_, ?_⟩
  · show (heap1.memalign env.memalign _ env.garbage).live.erase env.memalign = heap1.live
    rw [memalign_live _ _ _ _ halloc]
    simp
  · show (heap1.memalign env.memalign _ env.garbage).log ++ [HeapEvent.free env.memalign] = _
    rw [memalign_log _ _ _ _ halloc]
    simp

end Libogc
